import Mathlib

/-!
Shallow embedding of the WeGo group-chat backend (src/backend of the
repository): the data model (`models.py`), the poll / preference extraction
pipeline (`ai_service.py`), the orchestration layer (`chat_logic.py`),
the Firestore snapshot listener (`listeners.py`) and the HTTP endpoints
that mutate shared state (`main.py`).

Modelling conventions:
- JSON values returned by the generative model are embedded as the
  inductive `Json` below; Python `dict` is a list of key/value pairs with
  first-key-wins lookup (keys produced by `json.loads` are unique).
- The generative model call is an unreliable oracle; its possible outcomes
  (no parts, empty text, unparsable text, a raised exception, or a parsed
  JSON value) are the inductive `GenaiResponse`, passed as an explicit
  argument to each function that calls the model.
- Timestamps (`datetime.datetime`) are embedded as `Nat`; the only
  operations the code performs on them are "take now" and "store".
- Geographic coordinates (floats such as 38.585) are embedded in
  milli-degrees as integers (38.585 → 38585): the code only ever stores
  these constants, never computes with them.
- Firestore documents are passed in and returned explicitly: a function
  that reads a document takes its current value as an argument and returns
  the value it leaves in the store.
-/

namespace WeGo

/-- A JSON value, as produced by Python `json.loads`. Objects are
association lists with unique keys (first-key-wins lookup). -/
inductive Json where
  | null
  | bool (b : Bool)
  | num (n : Int)
  | str (s : String)
  | arr (elems : List Json)
  | obj (fields : List (String × Json))

/-- Python `dict.get(key)`: the value at `key`, or absent. -/
def lookupKey : List (String × Json) → String → Option Json
  | [], _ => none
  | (k, v) :: rest, key => if k = key then some v else lookupKey rest key

/-- Python `dict[key] = value`: replace the value at `key`, or append. -/
def setKey : List (String × Json) → String → Json → List (String × Json)
  | [], key, v => [(key, v)]
  | (k0, v0) :: rest, key, v =>
    if k0 = key then (key, v) :: rest else (k0, v0) :: setKey rest key v

/-- `models.py` `StructuredPreferences`: preference lists, all defaulting
to empty. -/
structure StructuredPreferences where
  cuisines_positive : List String := []
  cuisines_negative : List String := []
  price_range : List String := []
  dietary_restrictions : List String := []
deriving DecidableEq, Repr

/-- `models.py` `DecisionSession`: the rolling group preference record,
stored as the `current_decision` field of the chat document. -/
structure DecisionSession where
  structured_preferences : StructuredPreferences := {}
  summary : String := "No preferences found yet."
  last_updated : Nat := 0
deriving DecidableEq, Repr

/-- `DecisionSession()` built from defaults, with `last_updated` set by the
`default_factory` to the current time. -/
def defaultDecisionSession (now : Nat) : DecisionSession :=
  { last_updated := now }

/-- `models.py` `PollOption`. -/
structure PollOption where
  text : String
  votes : Nat := 0
deriving DecidableEq, Repr

/-- `models.py` `Poll`. `created_at` is a timestamp (embedded as `Nat`). -/
structure Poll where
  title : String
  options : List PollOption
  created_at : Nat := 0
  created_by_message : String
deriving DecidableEq, Repr

/-- Outcome of one call to the generative model, as observed by the code in
`ai_service.py`: `response.parts` empty, `response.text` empty, text that
`json.loads` rejects, the call raising, or a successfully parsed JSON
value. -/
inductive GenaiResponse where
  | noParts
  | emptyText
  | badJson
  | raises
  | json (value : Json)

/-- Pydantic validation of a `List[str]` field value: accepted exactly when
the JSON value is an array of strings. -/
def parseStringValues : List Json → Option (List String)
  | [] => some []
  | .str s :: rest =>
    match parseStringValues rest with
    | some tail => some (s :: tail)
    | none => none
  | _ :: _ => none

/-- Pydantic validation of one optional `List[str]` field of
`StructuredPreferences`: an absent key yields the default empty list, a
present key must hold an array of strings. -/
def parseStringListField (fields : List (String × Json)) (key : String) :
    Option (List String) :=
  match lookupKey fields key with
  | none => some []
  | some (.arr xs) => parseStringValues xs
  | some _ => none

/-- Pydantic validation of a `StructuredPreferences` value (`models.py`):
the value must be an object; each of the four list fields defaults to empty
when absent and must be a list of strings when present. -/
def parseStructuredPreferences : Json → Option StructuredPreferences
  | .obj fields =>
    match parseStringListField fields "cuisines_positive",
          parseStringListField fields "cuisines_negative",
          parseStringListField fields "price_range",
          parseStringListField fields "dietary_restrictions" with
    | some cp, some cn, some pr, some dr =>
      some { cuisines_positive := cp, cuisines_negative := cn,
             price_range := pr, dietary_restrictions := dr }
    | _, _, _, _ => none
  | _ => none

/-- Pydantic validation of the `structured_preferences` field of
`DecisionSession`: absent gives the default, present must validate as a
`StructuredPreferences`. -/
def parseStructuredPreferencesField (fields : List (String × Json)) :
    Option StructuredPreferences :=
  match lookupKey fields "structured_preferences" with
  | none => some {}
  | some v => parseStructuredPreferences v

/-- Pydantic validation of the `summary` field: absent gives the default,
present must be a string. -/
def parseSummaryField (fields : List (String × Json)) : Option String :=
  match lookupKey fields "summary" with
  | none => some "No preferences found yet."
  | some (.str s) => some s
  | some _ => none

/-- Pydantic validation of the `last_updated` field (timestamps embedded as
`Nat`): absent gives the default-factory placeholder 0 (the code overwrites
it right after parsing), present must be a timestamp. -/
def parseLastUpdatedField (fields : List (String × Json)) : Option Nat :=
  match lookupKey fields "last_updated" with
  | none => some 0
  | some (.num n) => if n < 0 then none else some n.toNat
  | some _ => none

/-- Pydantic validation `DecisionSession(**response_json)` (`models.py`,
`ai_service.py:177`): the response must be an object (otherwise the `**`
splat raises); unknown keys are ignored (pydantic default `extra`
behaviour); each declared field defaults when absent and must have the
declared type when present. -/
def parseDecisionSession : Json → Option DecisionSession
  | .obj fields =>
    match parseStructuredPreferencesField fields, parseSummaryField fields,
          parseLastUpdatedField fields with
    | some sp, some sm, some lu =>
      some { structured_preferences := sp, summary := sm, last_updated := lu }
    | _, _, _ => none
  | _ => none

/-- `ai_service.py` `analyze_chat_for_preferences(chat_log)`: every failure
of the oracle (no parts, empty text, unparsable JSON, raised exception) and
every validation failure of the parsed JSON degrades to the default
`DecisionSession`; on success `last_updated` is overwritten with the
current time (`ai_service.py:178`). The chat log only influences the
prompt, hence only the oracle outcome. -/
def analyze_chat_for_preferences (chat_log : String) (response : GenaiResponse)
    (now : Nat) : DecisionSession :=
  match response with
  | .json j =>
    match parseDecisionSession j with
    | some session => { session with last_updated := now }
    | none => defaultDecisionSession now
  | _ => defaultDecisionSession now

/-- Result of one `run_preference_analysis` run: the `current_decision`
field of the chat document after the run, and whether the generative
extraction was invoked at all. -/
structure PreferenceAnalysisResult where
  current_decision : DecisionSession
  invoked_extraction : Bool
deriving DecidableEq, Repr

/-- `chat_logic.py` `run_preference_analysis(chat_id)`: fetch the formatted
chat log; if it is empty (`if not chat_log`) return without calling the
model and without writing; otherwise call the extraction and
unconditionally write its result to `current_decision`. `stored` is the
value of `current_decision` in the chat document before the run. -/
def run_preference_analysis (chat_log : String) (response : GenaiResponse)
    (now : Nat) (stored : DecisionSession) : PreferenceAnalysisResult :=
  if chat_log = "" then
    { current_decision := stored, invoked_extraction := false }
  else
    { current_decision := analyze_chat_for_preferences chat_log response now,
      invoked_extraction := true }

/-- The oracle outcomes that `analyze_chat_for_preferences` treats as
extraction failure: every non-JSON outcome, and a JSON value that fails
`DecisionSession` validation. -/
def extraction_failed : GenaiResponse → Bool
  | .json j => (parseDecisionSession j).isNone
  | _ => true

/-- Pydantic validation `PollOption(text=opt.get("text"), votes=0)`
(`ai_service.py:118`): the element must be an object whose `text` key holds
a string; `votes` is hard-coded to 0 regardless of the response content. -/
def parsePollOption : Json → Option PollOption
  | .obj fields =>
    match lookupKey fields "text" with
    | some (.str t) => some { text := t, votes := 0 }
    | _ => none
  | _ => none

/-- The list comprehension over `response_json.get("options", [])`
(`ai_service.py:118`): each element must validate as a `PollOption`. -/
def parsePollOptions : List Json → Option (List PollOption)
  | [] => some []
  | x :: rest =>
    match parsePollOption x, parsePollOptions rest with
    | some o, some tail => some (o :: tail)
    | _, _ => none

/-- `response_json.get("options", [])` and the comprehension over it: an
absent key yields the empty list; a non-array value makes the comprehension
raise (caught, yielding no poll). -/
def pollOptionsFromResponse : Option Json → Option (List PollOption)
  | none => some []
  | some (.arr xs) => parsePollOptions xs
  | some _ => none

/-- `response_json.get("title")` followed by `Poll` validation of the
`title` field: the key must be present and hold a string (a missing key
gives `None`, which `Poll` validation rejects). -/
def pollTitleFromResponse (fields : List (String × Json)) : Option String :=
  match lookupKey fields "title" with
  | some (.str t) => some t
  | _ => none

/-- Construction of the `Poll` from a parsed response object
(`ai_service.py:113`-`122`): the options come from the comprehension,
`created_by_message` is the analyzed message text, and `created_at` comes
from the default factory (embedded as 0). Any validation failure is caught
and yields no poll. -/
def buildPollFromResponse (message_text : String) : Json → Option Poll
  | .obj fields =>
    match pollTitleFromResponse fields,
          pollOptionsFromResponse (lookupKey fields "options") with
    | some title, some opts =>
      some { title := title, options := opts, created_at := 0,
             created_by_message := message_text }
    | _, _ => none
  | _ => none

/-- `ai_service.py` `analyze_message_for_poll(message_text)`: every oracle
failure returns no poll; a parsed JSON value is turned into a `Poll` when
it validates. -/
def analyze_message_for_poll (message_text : String) (response : GenaiResponse) :
    Option Poll :=
  match response with
  | .json j => buildPollFromResponse message_text j
  | _ => none

/-- The fixed `locationRestriction` rectangle added to every successfully
translated Places request (`ai_service.py:271`-`282`), a bounding box for
the St. Louis area. Coordinates are embedded in milli-degrees (38.585 →
38585) since the code only stores these constants. -/
def locationRestrictionJson : Json :=
  .obj [("rectangle", .obj
    [("low", .obj [("latitude", .num 38585), ("longitude", .num (-90394))]),
     ("high", .obj [("latitude", .num 38711), ("longitude", .num (-90216))])])]

/-- The deterministic fallback request body
`{"textQuery": "restaurant", "pageSize": 4}` returned by
`convert_decision_to_places_api_request` on every failure path
(`ai_service.py:254`, `260`, `295`, `304`). -/
def fallbackPlacesBody : List (String × Json) :=
  [("textQuery", .str "restaurant"), ("pageSize", .num 4)]

/-- `ai_service.py` `convert_decision_to_places_api_request(decision)`,
restricted to the request body it produces (the API key is environment
configuration). A parsed JSON object gets `pageSize = 4` and the fixed
`locationRestriction` added; every other outcome — no parts, empty text,
unparsable JSON, a raised exception, or a parsed non-object (on which the
`body["pageSize"] = 4` assignment raises) — returns the fallback body. The
decision only influences the prompt, hence only the oracle outcome. -/
def convert_decision_to_places_api_request (decision : DecisionSession)
    (response : GenaiResponse) : List (String × Json) :=
  match response with
  | .json (.obj fields) =>
    setKey (setKey fields "pageSize" (.num 4))
      "locationRestriction" locationRestrictionJson
  | _ => fallbackPlacesBody

/-- One invocation of the `listeners.py` `on_chat_snapshot` callback body
for a single chat: `last_count` is `_processed_counts.get(chat_id, -1)`,
`message_count` is read from the changed document. Returns the new cached
count and whether a preference-analysis run was scheduled
(`listeners.py:29`-`38`). -/
def on_chat_snapshot_step (last_count : Int) (message_count : Int) :
    Int × Bool :=
  if message_count = last_count then
    (last_count, false)
  else
    (message_count,
      if 0 < message_count ∧ message_count % 4 = 0 then true else false)

/-- The counts at which analysis is scheduled when a sequence of snapshot
notifications for one chat is processed starting from cached count
`last_count`. -/
def scheduled_counts_from (last_count : Int) : List Int → List Int
  | [] => []
  | c :: rest =>
    let step := on_chat_snapshot_step last_count c
    if step.2 then c :: scheduled_counts_from step.1 rest
    else scheduled_counts_from step.1 rest

/-- The counts at which analysis is scheduled for a fresh chat (cache
sentinel -1, `listeners.py:25`). -/
def scheduled_counts (counts : List Int) : List Int :=
  scheduled_counts_from (-1) counts

/-- Outcome of the vote transaction in `main.py` `vote_on_poll`. -/
inductive VoteResult where
  | notFound
  | invalidOption
  | updated (poll : Poll)
deriving DecidableEq, Repr

/-- HTTP status surfaced for each vote outcome (`main.py:274`, `288`;
success returns the updated poll with status 200). -/
def VoteResult.httpStatus : VoteResult → Nat
  | .notFound => 404
  | .invalidOption => 400
  | .updated _ => 200

/-- The `for option in new_options` loop of `update_in_transaction`
(`main.py:281`-`285`): increment the vote count of the first option whose
`text` equals the requested option text, leave the rest untouched; absent
when no option matches. -/
def incrementFirstMatch : List PollOption → String → Option (List PollOption)
  | [], _ => none
  | o :: rest, t =>
    if o.text = t then some ({ o with votes := o.votes + 1 } :: rest)
    else
      match incrementFirstMatch rest t with
      | some rest2 => some (o :: rest2)
      | none => none

/-- `main.py` `update_in_transaction(tx, doc_ref)`: a missing poll document
raises 404; an option text matching no option raises 400 before any write;
otherwise the votes of the matched option are incremented and the options field
is written back. `snapshot` is the stored poll document (absent when the
document does not exist). -/
def update_in_transaction (snapshot : Option Poll) (option_text : String) :
    VoteResult :=
  match snapshot with
  | none => .notFound
  | some poll =>
    match incrementFirstMatch poll.options option_text with
    | none => .invalidOption
    | some opts => .updated { poll with options := opts }

/-- `main.py` `vote_on_poll` endpoint: runs the transaction; when the
transaction raises (404 / 400) it aborts before `tx.update`, so the stored
poll document is unchanged; on success the updated poll is written. Returns
the outcome and the stored poll document after the request. -/
def vote_on_poll (stored : Option Poll) (option_text : String) :
    VoteResult × Option Poll :=
  match update_in_transaction stored option_text with
  | .updated poll2 => (.updated poll2, some poll2)
  | r => (r, stored)

/-- The transactional read-increment-write of `main.py`
`increment_counter_in_transaction` (lines 192-202): read `message_count`,
write back its successor. -/
def increment_counter_in_transaction (message_count : Nat) : Nat :=
  message_count + 1

/-- Net effect of one accepted `post_message` request on `message_count`
(`main.py:167`-`210`): line 177 first applies
`update({"message_count": firestore.Increment(1)})`, then the transaction
reads the incremented value and writes its successor. -/
def post_message_count_effect (message_count : Nat) : Nat :=
  increment_counter_in_transaction (message_count + 1)

/-- `message_count` after `n` accepted message posts to a chat created with
`message_count = 0` (`main.py:235`). -/
def messageCountAfterPosts : Nat → Nat
  | 0 => 0
  | n + 1 => post_message_count_effect (messageCountAfterPosts n)

/-- A previously stored, non-empty preference session for a chat whose
group wants cheap sushi and no Thai. -/
def goodSession : DecisionSession :=
  { structured_preferences :=
      { cuisines_positive := ["sushi"], cuisines_negative := ["thai"],
        price_range := ["cheap"] },
    summary := "The group wants cheap sushi and no Thai.",
    last_updated := 3 }

/-- A schema-conforming response under the `PreferenceGroup` JSON schema
that `analyze_chat_for_preferences` forces on the model
(`ai_service.py:162`): a list of per-user preference entries identifying
sushi as wanted and thai as rejected. -/
def sushiPreferenceGroupJson : Json :=
  .obj [("preferences", .arr
    [.obj [("user", .str "alice"), ("preference", .str "wants"),
           ("object", .str "cheap sushi")],
     .obj [("user", .str "bob"), ("preference", .str "avoids"),
           ("object", .str "thai")]])]

/-- A poll-option object as the poll response schema requires
(`ai_service.py:32`-`38`). -/
def pollOptionJson (t : String) : Json := .obj [("text", .str t)]

/-- A stored two-option poll document. -/
def pizzaPoll : Poll :=
  { title := "Pizza Tonight?",
    options := [{ text := "Yes", votes := 2 }, { text := "No", votes := 1 }],
    created_at := 5,
    created_by_message := "Should we get pizza tonight?" }

/-- `pizzaPoll` after one successful vote for "Yes". -/
def pizzaPollVoted : Poll :=
  { title := "Pizza Tonight?",
    options := [{ text := "Yes", votes := 3 }, { text := "No", votes := 1 }],
    created_at := 5,
    created_by_message := "Should we get pizza tonight?" }

/-- A poll response whose options carry non-zero `votes` counts in the
JSON output of the model. -/
def pollResponseWithVotes : Json :=
  .obj [("title", .str "Pizza Tonight?"),
        ("options", .arr
          [.obj [("text", .str "Yes"), ("votes", .num 7)],
           .obj [("text", .str "No"), ("votes", .num 3)]])]

/-- The poll `analyze_message_for_poll` builds from
`pollResponseWithVotes`. -/
def pollFromVotesResponse : Poll :=
  { title := "Pizza Tonight?",
    options := [{ text := "Yes", votes := 0 }, { text := "No", votes := 0 }],
    created_at := 0,
    created_by_message := "pizza?" }

/-! Helper lemmas. -/

theorem lookupKey_setKey_same (fields : List (String × Json)) (key : String)
    (v : Json) : lookupKey (setKey fields key v) key = some v := by
  induction fields with
  | nil => simp [setKey, lookupKey]
  | cons p rest ih =>
    obtain ⟨k0, v0⟩ := p
    by_cases h : k0 = key
    · simp [setKey, h, lookupKey]
    · simp [setKey, h, lookupKey, ih]

theorem lookupKey_setKey_ne (fields : List (String × Json))
    (key key2 : String) (v : Json) (h : key ≠ key2) :
    lookupKey (setKey fields key2 v) key = lookupKey fields key := by
  induction fields with
  | nil => simp [setKey, lookupKey, Ne.symm h]
  | cons p rest ih =>
    obtain ⟨k0, v0⟩ := p
    by_cases h0 : k0 = key2
    · subst h0
      simp [setKey, lookupKey, Ne.symm h, fun hc : k0 = key => h (hc ▸ rfl)]
    · by_cases h1 : k0 = key
      · subst h1
        simp [setKey, lookupKey, h]
      · simp [setKey, h0, lookupKey, h1, ih]

theorem incrementFirstMatch_eq_none (opts : List PollOption) (t : String)
    (h : ∀ o ∈ opts, o.text ≠ t) : incrementFirstMatch opts t = none := by
  induction opts with
  | nil => rfl
  | cons o rest ih =>
    have ho : o.text ≠ t := h o (List.mem_cons_self o rest)
    have hrest : incrementFirstMatch rest t = none :=
      ih fun x hx => h x (List.mem_cons_of_mem o hx)
    simp [incrementFirstMatch, ho, hrest]

theorem incrementFirstMatch_eq_some {opts opts2 : List PollOption}
    {t : String} (h : incrementFirstMatch opts t = some opts2) :
    ∃ pre o post, opts = pre ++ o :: post ∧ o.text = t ∧
      (∀ x ∈ pre, x.text ≠ t) ∧
      opts2 = pre ++ { o with votes := o.votes + 1 } :: post := by
  induction opts generalizing opts2 with
  | nil => simp [incrementFirstMatch] at h
  | cons o rest ih =>
    by_cases ho : o.text = t
    · simp only [incrementFirstMatch, if_pos ho, Option.some.injEq] at h
      exact ⟨[], o, rest, by simp, ho, by simp, by simp [← h]⟩
    · simp only [incrementFirstMatch, if_neg ho] at h
      cases hr : incrementFirstMatch rest t with
      | none => rw [hr] at h; simp at h
      | some rest2 =>
        rw [hr] at h
        simp only [Option.some.injEq] at h
        obtain ⟨pre, o2, post, h1, h2, h3, h4⟩ := ih hr
        refine ⟨o :: pre, o2, post, by simp [h1], h2, ?_, by simp [← h, h4]⟩
        intro x hx
        rcases List.mem_cons.mp hx with hx | hx
        · exact hx ▸ ho
        · exact h3 x hx

theorem parsePollOption_votes {j : Json} {o : PollOption}
    (h : parsePollOption j = some o) : o.votes = 0 := by
  unfold parsePollOption at h
  split at h
  · split at h
    · simp only [Option.some.injEq] at h
      subst h
      rfl
    · simp at h
  · simp at h

theorem parsePollOptions_votes {xs : List Json} {opts : List PollOption}
    (h : parsePollOptions xs = some opts) : ∀ o ∈ opts, o.votes = 0 := by
  induction xs generalizing opts with
  | nil =>
    simp only [parsePollOptions, Option.some.injEq] at h
    subst h
    intro o ho
    cases ho
  | cons x rest ih =>
    cases hx : parsePollOption x with
    | none => simp [parsePollOptions, hx] at h
    | some o0 =>
      cases hr : parsePollOptions rest with
      | none => simp [parsePollOptions, hx, hr] at h
      | some tail =>
        simp only [parsePollOptions, hx, hr, Option.some.injEq] at h
        subst h
        intro o ho
        rcases List.mem_cons.mp ho with ho | ho
        · exact ho ▸ parsePollOption_votes hx
        · exact ih hr o ho

theorem pollOptionsFromResponse_votes {oj : Option Json}
    {opts : List PollOption} (h : pollOptionsFromResponse oj = some opts) :
    ∀ o ∈ opts, o.votes = 0 := by
  cases oj with
  | none =>
    simp only [pollOptionsFromResponse, Option.some.injEq] at h
    subst h
    intro o ho
    cases ho
  | some v =>
    cases v with
    | arr xs => exact parsePollOptions_votes h
    | null => simp [pollOptionsFromResponse] at h
    | bool b => simp [pollOptionsFromResponse] at h
    | num n => simp [pollOptionsFromResponse] at h
    | str s => simp [pollOptionsFromResponse] at h
    | obj fields => simp [pollOptionsFromResponse] at h

theorem parsePollOptions_map (ts : List String) :
    parsePollOptions (ts.map pollOptionJson)
      = some (ts.map fun t => ({ text := t, votes := 0 } : PollOption)) := by
  induction ts with
  | nil => rfl
  | cons t rest ih =>
    simp [parsePollOptions, parsePollOption, pollOptionJson, lookupKey, ih]

/-! Claim theorems. -/

/-- Claim C1: the spec states that `message_count` after N accepted message
posts equals N (one atomic increment per accepted message). The code of
`post_message` increments the counter twice per accepted post: once via the
`firestore.Increment(1)` update at `main.py:177` and once more in the
transaction at `main.py:192`-`202`, so after one post the count is 2, and
after n posts it is 2n. -/
theorem C1_message_count_after_posts :
    messageCountAfterPosts 1 = 2 ∧ messageCountAfterPosts 1 ≠ 1
    ∧ messageCountAfterPosts 5 = 10 := by
  refine ⟨rfl, ?_, rfl⟩
  decide

/-- Claim C2 (counterexample): with a nonempty chat log, a previously good
stored session, and an extraction failure (the model call raises), the
orchestration layer does not leave `current_decision` unchanged: it
overwrites the good session with the returned empty default. -/
theorem C2_overwrite_counterexample :
    (run_preference_analysis "alice: hi" .raises 7 goodSession).current_decision
      = defaultDecisionSession 7
    ∧ (run_preference_analysis "alice: hi" .raises 7 goodSession).current_decision
      ≠ goodSession := by
  constructor
  · rfl
  · decide

/-- Claim C2 (amended): when preference extraction fails on a nonempty chat
log, `run_preference_analysis` overwrites the stored `current_decision`
with the default `DecisionSession`; the stored session is left unchanged
only when the formatted chat log is empty (in which case extraction is not
attempted at all). -/
theorem C2_extraction_failure_overwrites :
    ∀ (chat_log : String) (response : GenaiResponse) (now : Nat)
      (stored : DecisionSession),
    (chat_log ≠ "" → extraction_failed response = true →
      (run_preference_analysis chat_log response now stored).current_decision
        = defaultDecisionSession now)
    ∧ (chat_log = "" →
      (run_preference_analysis chat_log response now stored).current_decision
        = stored) := by
  intro chat_log response now stored
  constructor
  · intro hne hfail
    unfold run_preference_analysis
    rw [if_neg hne]
    show analyze_chat_for_preferences chat_log response now
      = defaultDecisionSession now
    cases response with
    | json j =>
      cases hp : parseDecisionSession j with
      | some s => simp [extraction_failed, hp] at hfail
      | none => simp [analyze_chat_for_preferences, hp]
    | noParts => rfl
    | emptyText => rfl
    | badJson => rfl
    | raises => rfl
  · intro he
    unfold run_preference_analysis
    rw [if_pos he]

/-- Claim C2 (witness): the amended claim at a concrete failing run. -/
theorem C2_extraction_failure_overwrites_witness :
    (run_preference_analysis "alice: hi" .raises 7 goodSession).current_decision
      = defaultDecisionSession 7 :=
  (C2_extraction_failure_overwrites "alice: hi" .raises 7 goodSession).1
    (by decide) rfl

/-- Claim C3: the extraction run forces the model to answer under the
`PreferenceGroup` schema (a `preferences` list of per-user entries,
`ai_service.py:162`) but parses the answer as `DecisionSession`
(`ai_service.py:177`), which has no `preferences` field; pydantic ignores
the unknown key, so even a schema-conforming answer identifying sushi as
wanted and thai as rejected stores the empty default session: stored
`cuisines_positive` and `cuisines_negative` are empty and contain neither
"sushi" nor "thai". -/
theorem C3_preference_group_output_dropped :
    (run_preference_analysis "alice: lets get cheap sushi\nbob: no thai please"
        (.json sushiPreferenceGroupJson) 9 goodSession).current_decision
      = defaultDecisionSession 9
    ∧ (run_preference_analysis "alice: lets get cheap sushi\nbob: no thai please"
        (.json sushiPreferenceGroupJson) 9
        goodSession).current_decision.structured_preferences.cuisines_positive
      = []
    ∧ (run_preference_analysis "alice: lets get cheap sushi\nbob: no thai please"
        (.json sushiPreferenceGroupJson) 9
        goodSession).current_decision.structured_preferences.cuisines_negative
      = [] := by
  refine ⟨?_, rfl, rfl⟩
  rfl

/-- Claim C4: for notification counts [4,4,5,8,8,8,12] on one chat the
listener schedules preference analysis exactly at the distinct qualifying
transitions 4, 8, 12; in general one notification schedules analysis
exactly when the count differs from the cached last-seen count, is
positive, and is a multiple of 4. -/
theorem C4_trigger_schedule :
    scheduled_counts [4, 4, 5, 8, 8, 8, 12] = [4, 8, 12]
    ∧ ∀ (last_count c : Int),
        (on_chat_snapshot_step last_count c).2 = true ↔
          (c ≠ last_count ∧ 0 < c ∧ c % 4 = 0) := by
  constructor
  · decide
  · intro last_count c
    unfold on_chat_snapshot_step
    by_cases h : c = last_count
    · simp [h]
    · simp only [if_neg h]
      split_ifs with hq
      · simp [h, hq]
      · constructor
        · intro hfalse
          simp at hfalse
        · intro hc
          exact absurd ⟨hc.2.1, hc.2.2⟩ hq

/-- Claim C4 (witness): a changed, positive, multiple-of-4 count schedules
analysis. -/
theorem C4_trigger_schedule_witness : (on_chat_snapshot_step 3 4).2 = true :=
  (C4_trigger_schedule.2 3 4).mpr (by decide)

/-- Claim C5 (counterexample): a parsed response with a title and a single
option is not rejected: `analyze_message_for_poll` returns a one-option
poll rather than none. -/
theorem C5_single_option_counterexample :
    analyze_message_for_poll "Should we get pizza tonight?"
        (.json (.obj [("title", .str "Pizza Tonight?"),
          ("options", .arr [.obj [("text", .str "Yes")]])]))
      = some { title := "Pizza Tonight?",
               options := [{ text := "Yes", votes := 0 }],
               created_at := 0,
               created_by_message := "Should we get pizza tonight?" } := rfl

/-- Claim C5 (amended): `analyze_message_for_poll` performs no
minimum-option check: whenever the model response parses with a string
title and a well-formed options list, it returns a `Poll` containing
exactly those options, even when there are fewer than two. -/
theorem C5_no_min_option_check :
    ∀ (message_text title : String) (option_texts : List String),
    analyze_message_for_poll message_text
        (.json (.obj [("title", .str title),
          ("options", .arr (option_texts.map pollOptionJson))]))
      = some { title := title,
               options := option_texts.map
                 fun t => ({ text := t, votes := 0 } : PollOption),
               created_at := 0, created_by_message := message_text } := by
  intro message_text title option_texts
  simp only [analyze_message_for_poll]
  simp [buildPollFromResponse, pollTitleFromResponse, pollOptionsFromResponse,
    lookupKey, parsePollOptions_map]

/-- Claim C5 (witness): the amended claim at a concrete single-option
response. -/
theorem C5_no_min_option_check_witness :
    analyze_message_for_poll "lets do karaoke"
        (.json (.obj [("title", .str "Karaoke?"),
          ("options", .arr (["Sure"].map pollOptionJson))]))
      = some { title := "Karaoke?", options := [{ text := "Sure", votes := 0 }],
               created_at := 0, created_by_message := "lets do karaoke" } :=
  C5_no_min_option_check "lets do karaoke" "Karaoke?" ["Sure"]

/-- Claim C6 (counterexample): the deterministic fallback request returned
on translation failure does not carry the fixed geographic bounding box:
its body has no `locationRestriction` key at all. -/
theorem C6_fallback_no_box_counterexample :
    convert_decision_to_places_api_request (defaultDecisionSession 0) .raises
      = fallbackPlacesBody
    ∧ lookupKey (convert_decision_to_places_api_request
        (defaultDecisionSession 0) .raises) "locationRestriction" = none :=
  ⟨rfl, rfl⟩

/-- Claim C6 (amended): every request body produced by the translator
carries the fixed result cap `pageSize = 4`; a successfully parsed
translation additionally carries the fixed geographic bounding box; every
failure path returns the deterministic fallback — generic query text
"restaurant", the fixed cap, no price filter and no bounding box. -/
theorem C6_page_size_and_box :
    ∀ (decision : DecisionSession) (response : GenaiResponse),
    lookupKey (convert_decision_to_places_api_request decision response)
        "pageSize" = some (.num 4)
    ∧ (∀ fields, response = .json (.obj fields) →
        lookupKey (convert_decision_to_places_api_request decision response)
          "locationRestriction" = some locationRestrictionJson)
    ∧ ((∀ fields, response ≠ .json (.obj fields)) →
        convert_decision_to_places_api_request decision response
          = fallbackPlacesBody
        ∧ lookupKey fallbackPlacesBody "priceLevels" = none
        ∧ lookupKey fallbackPlacesBody "locationRestriction" = none
        ∧ lookupKey fallbackPlacesBody "textQuery" = some (.str "restaurant")) := by
  intro decision response
  cases response with
  | json j =>
    cases j with
    | obj fields =>
      refine ⟨?_, fun fields0 _ => lookupKey_setKey_same _ _ _, fun hall =>
        absurd rfl (hall fields)⟩
      show lookupKey (setKey (setKey fields "pageSize" (.num 4))
        "locationRestriction" locationRestrictionJson) "pageSize"
        = some (.num 4)
      rw [lookupKey_setKey_ne _ _ _ _ (by decide), lookupKey_setKey_same]
    | null => exact ⟨rfl, fun fields0 h => by simp at h,
        fun _ => ⟨rfl, rfl, rfl, rfl⟩⟩
    | bool b => exact ⟨rfl, fun fields0 h => by simp at h,
        fun _ => ⟨rfl, rfl, rfl, rfl⟩⟩
    | num n => exact ⟨rfl, fun fields0 h => by simp at h,
        fun _ => ⟨rfl, rfl, rfl, rfl⟩⟩
    | str s => exact ⟨rfl, fun fields0 h => by simp at h,
        fun _ => ⟨rfl, rfl, rfl, rfl⟩⟩
    | arr xs => exact ⟨rfl, fun fields0 h => by simp at h,
        fun _ => ⟨rfl, rfl, rfl, rfl⟩⟩
  | noParts => exact ⟨rfl, fun fields0 h => by simp at h,
      fun _ => ⟨rfl, rfl, rfl, rfl⟩⟩
  | emptyText => exact ⟨rfl, fun fields0 h => by simp at h,
      fun _ => ⟨rfl, rfl, rfl, rfl⟩⟩
  | badJson => exact ⟨rfl, fun fields0 h => by simp at h,
      fun _ => ⟨rfl, rfl, rfl, rfl⟩⟩
  | raises => exact ⟨rfl, fun fields0 h => by simp at h,
      fun _ => ⟨rfl, rfl, rfl, rfl⟩⟩

/-- Claim C6 (witness): the fallback produced when the model call raises. -/
theorem C6_page_size_and_box_witness :
    convert_decision_to_places_api_request (defaultDecisionSession 0) .raises
      = fallbackPlacesBody
    ∧ lookupKey fallbackPlacesBody "priceLevels" = none
    ∧ lookupKey fallbackPlacesBody "locationRestriction" = none
    ∧ lookupKey fallbackPlacesBody "textQuery" = some (.str "restaurant") :=
  (C6_page_size_and_box (defaultDecisionSession 0) .raises).2.2
    fun _ h => nomatch h

/-- Claim C7: voting with an `option_text` matching no option of a stored
poll leaves the stored poll (and so the vote count of every option) unchanged
and signals the invalid-option error, surfaced as HTTP 400. -/
theorem C7_invalid_vote_unchanged :
    ∀ (poll : Poll) (option_text : String),
    (∀ o ∈ poll.options, o.text ≠ option_text) →
    vote_on_poll (some poll) option_text = (.invalidOption, some poll)
    ∧ (vote_on_poll (some poll) option_text).1.httpStatus = 400 := by
  intro poll option_text h
  have hnone := incrementFirstMatch_eq_none poll.options option_text h
  have hupd : update_in_transaction (some poll) option_text
      = .invalidOption := by
    simp [update_in_transaction, hnone]
  constructor
  · unfold vote_on_poll
    rw [hupd]
  · unfold vote_on_poll
    rw [hupd]
    rfl

/-- Claim C7 (witness): voting "Maybe" on a Yes/No poll. -/
theorem C7_invalid_vote_unchanged_witness :
    vote_on_poll (some pizzaPoll) "Maybe" = (.invalidOption, some pizzaPoll)
    ∧ (vote_on_poll (some pizzaPoll) "Maybe").1.httpStatus = 400 :=
  C7_invalid_vote_unchanged pizzaPoll "Maybe" (by decide)

/-- Claim C8: every poll built by `analyze_message_for_poll` has
`votes = 0` on every option, whatever vote counts the JSON output of the model
carries (`ai_service.py:118` hard-codes `votes=0`). -/
theorem C8_poll_votes_start_zero :
    ∀ (message_text : String) (response : GenaiResponse) (poll : Poll),
    analyze_message_for_poll message_text response = some poll →
    ∀ o ∈ poll.options, o.votes = 0 := by
  intro message_text response poll h
  cases response with
  | noParts => simp [analyze_message_for_poll] at h
  | emptyText => simp [analyze_message_for_poll] at h
  | badJson => simp [analyze_message_for_poll] at h
  | raises => simp [analyze_message_for_poll] at h
  | json j =>
    have hb : buildPollFromResponse message_text j = some poll := h
    cases j with
    | obj fields =>
      cases ht : pollTitleFromResponse fields with
      | none => simp [buildPollFromResponse, ht] at hb
      | some title =>
        cases hops : pollOptionsFromResponse (lookupKey fields "options") with
        | none => simp [buildPollFromResponse, ht, hops] at hb
        | some opts =>
          simp only [buildPollFromResponse, ht, hops, Option.some.injEq] at hb
          subst hb
          exact pollOptionsFromResponse_votes hops
    | null => simp [buildPollFromResponse] at hb
    | bool b => simp [buildPollFromResponse] at hb
    | num n => simp [buildPollFromResponse] at hb
    | str s => simp [buildPollFromResponse] at hb
    | arr xs => simp [buildPollFromResponse] at hb

/-- Claim C8 (witness): the poll built from a response whose options carry
votes 7 and 3 still starts at zero votes. -/
theorem C8_poll_votes_start_zero_witness :
    ({ text := "Yes", votes := 0 } : PollOption).votes = 0 :=
  C8_poll_votes_start_zero "pizza?" (.json pollResponseWithVotes)
    pollFromVotesResponse (by decide) { text := "Yes", votes := 0 } (by decide)

/-- Claim C9: a successful vote on an existing option changes only the
first option whose text matches, incrementing its votes by exactly one and
keeping its text; every other option and the poll fields title, created_at and
created_by_message fields are unchanged. -/
theorem C9_vote_frame :
    ∀ (poll : Poll) (option_text : String) (poll2 : Poll),
    update_in_transaction (some poll) option_text = .updated poll2 →
    poll2.title = poll.title ∧ poll2.created_at = poll.created_at
    ∧ poll2.created_by_message = poll.created_by_message
    ∧ ∃ pre o post, poll.options = pre ++ o :: post ∧ o.text = option_text
        ∧ (∀ x ∈ pre, x.text ≠ option_text)
        ∧ poll2.options = pre ++ { o with votes := o.votes + 1 } :: post := by
  intro poll option_text poll2 h
  cases hm : incrementFirstMatch poll.options option_text with
  | none => simp [update_in_transaction, hm] at h
  | some opts =>
    simp only [update_in_transaction, hm, VoteResult.updated.injEq] at h
    subst h
    obtain ⟨pre, o, post, h1, h2, h3, h4⟩ := incrementFirstMatch_eq_some hm
    exact ⟨rfl, rfl, rfl, pre, o, post, h1, h2, h3, h4⟩

/-- Claim C9 (witness): voting "Yes" on the stored Yes/No poll. -/
theorem C9_vote_frame_witness :
    pizzaPollVoted.title = pizzaPoll.title
    ∧ pizzaPollVoted.created_at = pizzaPoll.created_at
    ∧ pizzaPollVoted.created_by_message = pizzaPoll.created_by_message
    ∧ ∃ pre o post, pizzaPoll.options = pre ++ o :: post ∧ o.text = "Yes"
        ∧ (∀ x ∈ pre, x.text ≠ "Yes")
        ∧ pizzaPollVoted.options
            = pre ++ { o with votes := o.votes + 1 } :: post :=
  C9_vote_frame pizzaPoll "Yes" pizzaPollVoted (by decide)

/-- Claim C10: when the formatted chat log is empty,
`run_preference_analysis` returns without invoking the generative
extraction and leaves the stored `current_decision` unchanged. -/
theorem C10_empty_log_no_write :
    ∀ (response : GenaiResponse) (now : Nat) (stored : DecisionSession),
    run_preference_analysis "" response now stored
      = { current_decision := stored, invoked_extraction := false } := by
  intro response now stored
  unfold run_preference_analysis
  rw [if_pos rfl]

/-- Claim C10 (witness): an empty chat log with a raising oracle and a
previously good session. -/
theorem C10_empty_log_no_write_witness :
    run_preference_analysis "" .raises 7 goodSession
      = { current_decision := goodSession, invoked_extraction := false } :=
  C10_empty_log_no_write .raises 7 goodSession

end WeGo
